import Mathlib

/-!
Verification of the stargazers query service
(`backend/routers/stargazers.py`).

The service reads a tabular dataset (a pandas dataframe in the source),
validates column presence, filters by project name, and derives the
latest star count plus the full time series.  We embed the dataframe as
a list of column names together with a list of rows, and the two
endpoint handlers as pure functions returning `Except HTTPException`.
`raise HTTPException(status_code, detail)` becomes `Except.error`.
-/

/-- Embeds class `Starpoint`: one (year, month, cumulative stars) point. -/
structure Starpoint where
  year : Int
  month : Int
  total_stars : Int
deriving Repr, DecidableEq

/-- Embeds class `GitHub_Project`: a project name, its latest star count,
and its sequence of star points. -/
structure GitHub_Project where
  project_name : String
  number_of_stars : Int
  starpoints : List Starpoint
deriving Repr, DecidableEq

/-- Embeds FastAPI `HTTPException(status_code=..., detail=...)`. -/
structure HTTPException where
  status_code : Nat
  detail : String
deriving Repr, DecidableEq

/-- One dataset row.  The source only ever reads the four columns
`name`, `year`, `month`, `star_count_current`; other columns of the CSV
(`star_count_prev`, `color_num`, ...) are never accessed and are elided. -/
structure Row where
  name : String
  year : Int
  month : Int
  star_count_current : Int
deriving Repr, DecidableEq

/-- Embeds a pandas dataframe: the list of column names (used by the
column-presence checks) and the rows in natural dataset order.  A column
absent from `columns` is treated as absent even though `Row` is total;
the source only reads a column after checking its presence. -/
structure DataFrame where
  columns : List String
  rows : List Row
deriving Repr, DecidableEq

deriving instance DecidableEq for Except

/-- The error raised when the response provider returns no dataframe:
`HTTPException(status_code=404, detail="Dataframe Missing")`. -/
def dataMissingError : HTTPException := ⟨404, "Dataframe Missing"⟩

/-- The error raised when a required column is absent:
`HTTPException(status_code=404, detail="Dataframe Corrupted")`. -/
def dataCorruptedError : HTTPException := ⟨404, "Dataframe Corrupted"⟩

/-- The error raised when no row matches the requested project:
`HTTPException(status_code=404, detail="No project details")`. -/
def projectNotFoundError : HTTPException := ⟨404, "No project details"⟩

/-- Maximum of a list of integers, as pandas `Series.max()`.  The source
only calls `.max()` on non-empty series (guarded by the emptiness check),
so the `[]` case is never reached in the embedded code paths. -/
def listMax : List Int → Int
  | [] => 0
  | x :: xs => xs.foldl max x

/-- Embeds `dataframe = dataframe[dataframe["name"] == project_name]`:
the rows of the project, in natural dataset order. -/
def matchedRows (df : DataFrame) (project_name : String) : List Row :=
  df.rows.filter (fun r => r.name == project_name)

/-- Embeds `last_year: int = dataframe["year"].max()`. -/
def lastYear (df : DataFrame) (project_name : String) : Int :=
  listMax ((matchedRows df project_name).map Row.year)

/-- Embeds `last_month: int = dataframe[dataframe["year"] == last_year]["month"].max()`. -/
def lastMonth (df : DataFrame) (project_name : String) : Int :=
  listMax (((matchedRows df project_name).filter
    (fun r => r.year == lastYear df project_name)).map Row.month)

/-- Embeds `number_of_stars: int = dataframe[(dataframe.year == last_year) &
(dataframe.month == last_month)]['star_count_current'].max()`. -/
def numberOfStars (df : DataFrame) (project_name : String) : Int :=
  listMax (((matchedRows df project_name).filter
    (fun r => r.year == lastYear df project_name &&
              r.month == lastMonth df project_name)).map Row.star_count_current)

/-- Embeds the `for i in range(len(dataframe))` loop building `starpoints`:
one `Starpoint(int(year), int(month), int(star_count_current))` per matched
row, in natural row order. -/
def starpointsOf (df : DataFrame) (project_name : String) : List Starpoint :=
  (matchedRows df project_name).map
    (fun r => ⟨r.year, r.month, r.star_count_current⟩)

/-- Embeds `get_github_project_info`: the `/stargazer_data/{project_name}`
handler.  The provider argument is the result of
`response_provider.get_dataframe()` (`none` = no dataframe obtainable). -/
def get_github_project_info (dataframeOpt : Option DataFrame)
    (project_name : String) : Except HTTPException GitHub_Project :=
  match dataframeOpt with
  | none => Except.error dataMissingError
  | some dataframe =>
    if !dataframe.columns.contains "name" || !dataframe.columns.contains "year" ||
       !dataframe.columns.contains "month" ||
       !dataframe.columns.contains "star_count_current" then
      Except.error dataCorruptedError
    else if (matchedRows dataframe project_name).length == 0 then
      Except.error projectNotFoundError
    else
      Except.ok ⟨project_name, numberOfStars dataframe project_name,
                 starpointsOf dataframe project_name⟩

/-- Embeds pandas `Series.unique().tolist()` on a string column: the
distinct values in order of first appearance.  `seen` accumulates the
values already emitted. -/
def uniqueAux : List String → List String → List String
  | _, [] => []
  | seen, x :: xs =>
      if seen.contains x then uniqueAux seen xs
      else x :: uniqueAux (x :: seen) xs

/-- Embeds `dataframe["name"].unique().tolist()`. -/
def uniqueNames (l : List String) : List String := uniqueAux [] l

/-- Embeds `get_available_projects`: the `/stargazer_data/` handler. -/
def get_available_projects (dataframeOpt : Option DataFrame) :
    Except HTTPException (List String) :=
  match dataframeOpt with
  | none => Except.error dataMissingError
  | some dataframe =>
    if !dataframe.columns.contains "name" then
      Except.error dataCorruptedError
    else
      Except.ok (uniqueNames (dataframe.rows.map Row.name))

/-- Embeds `Response_Provider.get_dataframe()` as a state transition: the
provider holds (the parse of) the backing dataset; reading it returns the
dataframe and leaves the provider state unchanged, since pandas
`read_csv`/filtering construct fresh values and never write back. -/
def get_dataframe (provider : Option DataFrame) :
    Option DataFrame × Option DataFrame :=
  (provider, provider)

/-- One full request to the project-info endpoint against a provider:
calls `get_dataframe` and runs the handler, returning the response
together with the provider state after the call. -/
def get_github_project_info_call (provider : Option DataFrame)
    (project_name : String) :
    Except HTTPException GitHub_Project × Option DataFrame :=
  let r := get_dataframe provider
  (get_github_project_info r.1 project_name, r.2)

/-- The four-row dataset of the test fixture (`Mock_Response_Provider`):
columns name, year, month, star_count_prev, star_count_current, color_num. -/
def specDF : DataFrame :=
  ⟨["name", "year", "month", "star_count_prev", "star_count_current", "color_num"],
   [⟨"A", 2008, 3, 10⟩, ⟨"A", 2008, 4, 20⟩, ⟨"B", 2008, 3, 40⟩, ⟨"C", 2008, 3, 50⟩]⟩

/-- A dataset missing only the `month` column. -/
def monthMissingDF : DataFrame :=
  ⟨["name", "year", "star_count_current"],
   [⟨"A", 2008, 3, 10⟩, ⟨"B", 2008, 4, 20⟩]⟩

/-- A dataset with out-of-range values: months outside 1-12 and negative
star counts. -/
def weirdDF : DataFrame :=
  ⟨["name", "year", "month", "star_count_current"],
   [⟨"X", 2020, 13, -5⟩, ⟨"X", 2020, 0, -7⟩, ⟨"Y", 2019, 6, 3⟩]⟩

/-! ### Facts about `listMax` and `uniqueAux` -/

/-- The seed is below the fold of `max`. -/
theorem le_foldl_max (x : Int) (xs : List Int) : x ≤ xs.foldl max x := by
  induction xs generalizing x with
  | nil => exact le_refl x
  | cons y ys ih =>
      exact le_trans (le_max_left x y) (ih (max x y))

/-- The fold of `max` is either the seed or an element of the list. -/
theorem foldl_max_mem (x : Int) (xs : List Int) : xs.foldl max x ∈ x :: xs := by
  induction xs generalizing x with
  | nil => simp [List.foldl]
  | cons y ys ih =>
      have h := ih (max x y)
      rcases List.mem_cons.mp h with h1 | h1
      · rcases max_choice x y with h2 | h2
        · exact List.mem_cons.mpr (Or.inl (h1.trans h2))
        · exact List.mem_cons.mpr (Or.inr (List.mem_cons.mpr (Or.inl (h1.trans h2))))
      · exact List.mem_cons.mpr (Or.inr (List.mem_cons.mpr (Or.inr h1)))

/-- Every element of the list is below the fold of `max`. -/
theorem mem_le_foldl_max {a : Int} (x : Int) {xs : List Int} (h : a ∈ xs) :
    a ≤ xs.foldl max x := by
  induction xs generalizing x with
  | nil => cases h
  | cons y ys ih =>
      rcases List.mem_cons.mp h with h1 | h1
      · subst h1
        exact le_trans (le_max_right x a) (le_foldl_max (max x a) ys)
      · exact ih (max x y) h1

/-- The maximum of a non-empty list is attained by a member. -/
theorem listMax_mem {l : List Int} (h : l ≠ []) : listMax l ∈ l := by
  cases l with
  | nil => exact absurd rfl h
  | cons x xs => exact foldl_max_mem x xs

/-- The maximum of a list bounds every member. -/
theorem listMax_ge {l : List Int} {a : Int} (h : a ∈ l) : a ≤ listMax l := by
  cases l with
  | nil => cases h
  | cons x xs =>
      rcases List.mem_cons.mp h with h1 | h1
      · subst h1; exact le_foldl_max a xs
      · exact mem_le_foldl_max x h1

/-- Membership in `uniqueAux seen l`: the elements of `l` not in `seen`. -/
theorem mem_uniqueAux (l : List String) :
    ∀ (seen : List String) (x : String),
      x ∈ uniqueAux seen l ↔ x ∈ l ∧ x ∉ seen := by
  induction l with
  | nil => intro seen x; simp [uniqueAux]
  | cons y ys ih =>
      intro seen x
      by_cases hy : y ∈ seen
      · rw [show uniqueAux seen (y :: ys) = uniqueAux seen ys from by
          simp [uniqueAux, hy]]
        rw [ih seen x]
        constructor
        · rintro ⟨h1, h2⟩
          exact ⟨List.mem_cons_of_mem y h1, h2⟩
        · rintro ⟨h1, h2⟩
          rcases List.mem_cons.mp h1 with h3 | h3
          · subst h3
            exact absurd hy h2
          · exact ⟨h3, h2⟩
      · rw [show uniqueAux seen (y :: ys) = y :: uniqueAux (y :: seen) ys from by
          simp [uniqueAux, hy]]
        constructor
        · intro h1
          rcases List.mem_cons.mp h1 with h3 | h3
          · subst h3
            exact ⟨List.mem_cons_self x ys, hy⟩
          · have h4 := (ih (y :: seen) x).mp h3
            exact ⟨List.mem_cons_of_mem y h4.1,
                   fun hc => h4.2 (List.mem_cons_of_mem y hc)⟩
        · rintro ⟨h1, h2⟩
          rcases List.mem_cons.mp h1 with h3 | h3
          · exact List.mem_cons.mpr (Or.inl h3)
          · by_cases hxy : x = y
            · exact List.mem_cons.mpr (Or.inl hxy)
            · refine List.mem_cons.mpr (Or.inr ((ih (y :: seen) x).mpr ⟨h3, ?_⟩))
              intro hc
              rcases List.mem_cons.mp hc with h5 | h5
              · exact hxy h5
              · exact h2 h5

/-- `uniqueAux` emits no duplicates. -/
theorem nodup_uniqueAux (l : List String) :
    ∀ seen : List String, (uniqueAux seen l).Nodup := by
  induction l with
  | nil => intro seen; simp [uniqueAux]
  | cons y ys ih =>
      intro seen
      by_cases hy : y ∈ seen
      · rw [show uniqueAux seen (y :: ys) = uniqueAux seen ys from by
          simp [uniqueAux, hy]]
        exact ih seen
      · rw [show uniqueAux seen (y :: ys) = y :: uniqueAux (y :: seen) ys from by
          simp [uniqueAux, hy]]
        refine List.nodup_cons.mpr ⟨?_, ih (y :: seen)⟩
        intro hc
        exact ((mem_uniqueAux ys (y :: seen) y).mp hc).2 (List.mem_cons_self y seen)

/-- Membership in `uniqueNames` is membership in the original list. -/
theorem mem_uniqueNames (l : List String) (x : String) :
    x ∈ uniqueNames l ↔ x ∈ l := by
  simpa [uniqueNames] using mem_uniqueAux l [] x

/-! ### Evaluation of the handler on the success path -/

/-- When every required column is present and some row matches, the
project-info handler returns the project built from the matched rows. -/
theorem get_github_project_info_ok (df : DataFrame) (pn : String)
    (hname : df.columns.contains "name" = true)
    (hyear : df.columns.contains "year" = true)
    (hmonth : df.columns.contains "month" = true)
    (hstar : df.columns.contains "star_count_current" = true)
    (hmatch : ∃ r ∈ df.rows, r.name = pn) :
    get_github_project_info (some df) pn =
      Except.ok ⟨pn, numberOfStars df pn, starpointsOf df pn⟩ := by
  have hm : matchedRows df pn ≠ [] := by
    obtain ⟨r, hr, hrn⟩ := hmatch
    intro hnil
    have hmem : r ∈ matchedRows df pn :=
      List.mem_filter.mpr ⟨hr, by simp [hrn]⟩
    rw [hnil] at hmem
    cases hmem
  have hlen : ((matchedRows df pn).length == 0) = false := by
    simp [List.length_eq_zero, hm]
  have h1 : "name" ∈ df.columns := by simpa using hname
  have h2 : "year" ∈ df.columns := by simpa using hyear
  have h3 : "month" ∈ df.columns := by simpa using hmonth
  have h4 : "star_count_current" ∈ df.columns := by simpa using hstar
  unfold get_github_project_info
  simp [h1, h2, h3, h4, hlen]

/-- A matching row makes the filtered dataframe non-empty. -/
theorem matchedRows_ne_nil {df : DataFrame} {pn : String}
    (hmatch : ∃ r ∈ df.rows, r.name = pn) : matchedRows df pn ≠ [] := by
  obtain ⟨r, hr, hrn⟩ := hmatch
  intro hnil
  have hmem : r ∈ matchedRows df pn :=
    List.mem_filter.mpr ⟨hr, by simp [hrn]⟩
  rw [hnil] at hmem
  cases hmem

/-- The rows of the last year are non-empty when some row matched. -/
theorem yearRows_ne_nil (df : DataFrame) (pn : String)
    (hm : matchedRows df pn ≠ []) :
    (matchedRows df pn).filter (fun r => r.year == lastYear df pn) ≠ [] := by
  have h1 : lastYear df pn ∈ (matchedRows df pn).map Row.year :=
    listMax_mem (by simpa using hm)
  obtain ⟨r, hr, hry⟩ := List.mem_map.mp h1
  intro hnil
  have hmem : r ∈ (matchedRows df pn).filter
      (fun r => r.year == lastYear df pn) :=
    List.mem_filter.mpr ⟨hr, by simp [hry]⟩
  rw [hnil] at hmem
  cases hmem

/-- The rows tied on the last (year, month) are non-empty when some row
matched. -/
theorem tiedRows_ne_nil (df : DataFrame) (pn : String)
    (hm : matchedRows df pn ≠ []) :
    (matchedRows df pn).filter
      (fun r => r.year == lastYear df pn && r.month == lastMonth df pn) ≠ [] := by
  have hy := yearRows_ne_nil df pn hm
  have h1 : lastMonth df pn ∈
      ((matchedRows df pn).filter (fun r => r.year == lastYear df pn)).map
        Row.month :=
    listMax_mem (by simpa using hy)
  obtain ⟨r, hr, hrm⟩ := List.mem_map.mp h1
  have hr2 := List.mem_filter.mp hr
  intro hnil
  have hmem : r ∈ (matchedRows df pn).filter
      (fun r => r.year == lastYear df pn && r.month == lastMonth df pn) :=
    List.mem_filter.mpr ⟨hr2.1, by simp [hrm, Bool.and_eq_true]; simpa using hr2.2⟩
  rw [hnil] at hmem
  cases hmem

/-! ### Claims -/

/-- C1: for every dataset with all required columns and every project name
with at least one matching row, the handler succeeds and returns a
`number_of_stars` equal to the maximum `star_count_current` over exactly
the matched rows whose year is the maximum year among matched rows and
whose month is the maximum month among the rows of that maximum year (so
on ties for the greatest (year, month), the maximum among the tied rows
is used).  The maxima are characterised order-theoretically: attained by
a member and bounding every member. -/
theorem C1_number_of_stars_is_max_over_latest (df : DataFrame) (pn : String)
    (hname : df.columns.contains "name" = true)
    (hyear : df.columns.contains "year" = true)
    (hmonth : df.columns.contains "month" = true)
    (hstar : df.columns.contains "star_count_current" = true)
    (hmatch : ∃ r ∈ df.rows, r.name = pn) :
    ∃ p : GitHub_Project,
      get_github_project_info (some df) pn = Except.ok p ∧
      ∃ Y M : Int,
        (Y ∈ (matchedRows df pn).map Row.year ∧
          ∀ y ∈ (matchedRows df pn).map Row.year, y ≤ Y) ∧
        (M ∈ ((matchedRows df pn).filter (fun r => r.year == Y)).map Row.month ∧
          ∀ m ∈ ((matchedRows df pn).filter (fun r => r.year == Y)).map Row.month,
            m ≤ M) ∧
        (p.number_of_stars ∈
            ((matchedRows df pn).filter
              (fun r => r.year == Y && r.month == M)).map Row.star_count_current ∧
          ∀ s ∈ ((matchedRows df pn).filter
              (fun r => r.year == Y && r.month == M)).map Row.star_count_current,
            s ≤ p.number_of_stars) := by
  have hm : matchedRows df pn ≠ [] := matchedRows_ne_nil hmatch
  refine ⟨⟨pn, numberOfStars df pn, starpointsOf df pn⟩,
          get_github_project_info_ok df pn hname hyear hmonth hstar hmatch,
          lastYear df pn, lastMonth df pn, ⟨?_, ?_⟩, ⟨?_, ?_⟩, ⟨?_, ?_⟩⟩
  · exact listMax_mem (by simpa using hm)
  · intro y hy
    exact listMax_ge hy
  · exact listMax_mem (by simpa using yearRows_ne_nil df pn hm)
  · intro m hmm
    exact listMax_ge hmm
  · exact listMax_mem (by simpa using tiedRows_ne_nil df pn hm)
  · intro s hs
    exact listMax_ge hs

/-- C1 witness: on the test fixture, project "A" succeeds and its star
count is 20. -/
theorem C1_witness :
    ∃ p : GitHub_Project,
      get_github_project_info (some specDF) "A" = Except.ok p ∧
      p.number_of_stars = 20 := by
  obtain ⟨p, hok, -⟩ :=
    C1_number_of_stars_is_max_over_latest specDF "A" (by decide) (by decide)
      (by decide) (by decide) (by decide)
  refine ⟨p, hok, ?_⟩
  have h2 : get_github_project_info (some specDF) "A" =
      Except.ok ⟨"A", 20, [⟨2008, 3, 10⟩, ⟨2008, 4, 20⟩]⟩ := by decide
  rw [h2] at hok
  injection hok with h3
  rw [← h3]

/-- C2: for every dataset with all required columns and every project name
with at least one matching row, the returned starpoints are exactly one
point per dataset row whose name equals the project name, in the
dataset's natural row order (filtering preserves order; no deduplication
or re-sorting), each built from that row's (year, month,
star_count_current). -/
theorem C2_starpoints_are_matched_rows_in_order (df : DataFrame) (pn : String)
    (hname : df.columns.contains "name" = true)
    (hyear : df.columns.contains "year" = true)
    (hmonth : df.columns.contains "month" = true)
    (hstar : df.columns.contains "star_count_current" = true)
    (hmatch : ∃ r ∈ df.rows, r.name = pn) :
    ∃ p : GitHub_Project,
      get_github_project_info (some df) pn = Except.ok p ∧
      p.starpoints =
        (df.rows.filter (fun r => r.name == pn)).map
          (fun r => ⟨r.year, r.month, r.star_count_current⟩) :=
  ⟨⟨pn, numberOfStars df pn, starpointsOf df pn⟩,
   get_github_project_info_ok df pn hname hyear hmonth hstar hmatch, rfl⟩

/-- C2 witness: on the test fixture, project "A" yields exactly the two
matched rows as starpoints, in dataset order. -/
theorem C2_witness :
    ∃ p : GitHub_Project,
      get_github_project_info (some specDF) "A" = Except.ok p ∧
      p.starpoints = [⟨2008, 3, 10⟩, ⟨2008, 4, 20⟩] ∧
      p.starpoints.length = 2 := by
  obtain ⟨p, hok, hsp⟩ :=
    C2_starpoints_are_matched_rows_in_order specDF "A" (by decide) (by decide)
      (by decide) (by decide) (by decide)
  refine ⟨p, hok, ?_, ?_⟩
  · rw [hsp]; decide
  · rw [hsp]; decide

/-- C3: for every dataset whose columns include `name`, the
list-projects handler succeeds with the distinct name values: the result
has no duplicates and contains exactly the names occurring among the
rows. -/
theorem C3_list_projects_distinct_names (df : DataFrame)
    (hname : df.columns.contains "name" = true) :
    ∃ names : List String,
      get_available_projects (some df) = Except.ok names ∧
      names.Nodup ∧
      ∀ s : String, s ∈ names ↔ s ∈ df.rows.map Row.name := by
  refine ⟨uniqueNames (df.rows.map Row.name), ?_, ?_, ?_⟩
  · have h1 : "name" ∈ df.columns := by simpa using hname
    unfold get_available_projects
    simp [h1]
  · exact nodup_uniqueAux (df.rows.map Row.name) []
  · exact fun s => mem_uniqueNames (df.rows.map Row.name) s

/-- C3 witness: on the four-row fixture with names A, A, B, C the handler
returns a duplicate-free 3-element list whose set of elements is
exactly the names A, B, C. -/
theorem C3_witness :
    ∃ names : List String,
      get_available_projects (some specDF) = Except.ok names ∧
      names.Nodup ∧ names.length = 3 ∧
      (∀ s : String, s ∈ names ↔ (s = "A" ∨ s = "B" ∨ s = "C")) := by
  obtain ⟨names, hok, hnd, hmem⟩ := C3_list_projects_distinct_names specDF (by decide)
  have h2 : get_available_projects (some specDF) = Except.ok ["A", "B", "C"] := by
    decide
  rw [h2] at hok
  injection hok with h3
  subst h3
  exact ⟨["A", "B", "C"], h2, hnd, rfl, fun s => by simp⟩

/-- C4: for every dataset with all required columns and a project name
matching no row, the handler fails with the not-found project error,
whose transport status is 404. -/
theorem C4_project_not_found (df : DataFrame) (pn : String)
    (hname : df.columns.contains "name" = true)
    (hyear : df.columns.contains "year" = true)
    (hmonth : df.columns.contains "month" = true)
    (hstar : df.columns.contains "star_count_current" = true)
    (hnomatch : ∀ r ∈ df.rows, r.name ≠ pn) :
    get_github_project_info (some df) pn = Except.error projectNotFoundError ∧
    projectNotFoundError.status_code = 404 := by
  have h1 : "name" ∈ df.columns := by simpa using hname
  have h2 : "year" ∈ df.columns := by simpa using hyear
  have h3 : "month" ∈ df.columns := by simpa using hmonth
  have h4 : "star_count_current" ∈ df.columns := by simpa using hstar
  have hm : matchedRows df pn = [] := by
    unfold matchedRows
    refine List.filter_eq_nil_iff.mpr ?_
    intro r hr
    simp [hnomatch r hr]
  constructor
  · unfold get_github_project_info
    simp [h1, h2, h3, h4, hm]
  · rfl

/-- C4 witness: the fixture has no project "NotAProject", so the request
fails with the 404 not-found project error. -/
theorem C4_witness :
    get_github_project_info (some specDF) "NotAProject" =
      Except.error projectNotFoundError ∧
    projectNotFoundError.status_code = 404 :=
  C4_project_not_found specDF "NotAProject" (by decide) (by decide) (by decide)
    (by decide) (by decide)

/-- C5: when the provider returns no dataframe, both handlers fail with
the missing-data error, for every requested project name; the result
does not depend on any dataset contents, so no column check, filtering
or aggregation can influence it. -/
theorem C5_unavailable_means_data_missing (pn : String) :
    get_github_project_info none pn = Except.error dataMissingError ∧
    get_available_projects none = Except.error dataMissingError :=
  ⟨rfl, rfl⟩

/-- C6: column validation is fail-closed and operation-specific.  The
project-info handler fails with the corrupted-data error exactly when
one of the columns name, year, month, star_count_current is absent; the
list-projects handler fails with it exactly when the name column is
absent, and succeeds whenever name is present. -/
theorem C6_column_validation :
    (∀ (df : DataFrame) (pn : String),
        get_github_project_info (some df) pn = Except.error dataCorruptedError ↔
          ¬(df.columns.contains "name" = true ∧
            df.columns.contains "year" = true ∧
            df.columns.contains "month" = true ∧
            df.columns.contains "star_count_current" = true)) ∧
    (∀ df : DataFrame,
        get_available_projects (some df) = Except.error dataCorruptedError ↔
          ¬ df.columns.contains "name" = true) ∧
    (∀ df : DataFrame, df.columns.contains "name" = true →
        ∃ names : List String,
          get_available_projects (some df) = Except.ok names) := by
  refine ⟨?_, ?_, ?_⟩
  · intro df pn
    by_cases h1 : df.columns.contains "name" = true <;>
      by_cases h2 : df.columns.contains "year" = true <;>
        by_cases h3 : df.columns.contains "month" = true <;>
          by_cases h4 : df.columns.contains "star_count_current" = true <;>
            simp only [get_github_project_info, h1, h2, h3, h4,
              Bool.not_eq_true] at * <;>
            simp [h1, h2, h3, h4, dataCorruptedError, projectNotFoundError] <;>
            split <;> simp [dataCorruptedError, projectNotFoundError]
  · intro df
    by_cases h1 : df.columns.contains "name" = true <;>
      simp [get_available_projects, h1, dataCorruptedError, dataMissingError]
  · intro df h1
    refine ⟨uniqueNames (df.rows.map Row.name), ?_⟩
    have h2 : "name" ∈ df.columns := by simpa using h1
    unfold get_available_projects
    simp [h2]

/-- C6 witness: on a dataset missing only the month column, the
project-info handler fails with the corrupted-data error while the
list-projects handler succeeds. -/
theorem C6_witness :
    get_github_project_info (some monthMissingDF) "A" =
      Except.error dataCorruptedError ∧
    ∃ names : List String,
      get_available_projects (some monthMissingDF) = Except.ok names := by
  constructor
  · exact (C6_column_validation.1 monthMissingDF "A").mpr (by decide)
  · exact C6_column_validation.2.2 monthMissingDF (by decide)

/-- C7: every error either handler can produce carries status code 404
(the single not-found category); the three error outcomes are
distinguished only by their message text, which is pairwise distinct. -/
theorem C7_single_not_found_category :
    (∀ (dfo : Option DataFrame) (pn : String) (e : HTTPException),
        get_github_project_info dfo pn = Except.error e → e.status_code = 404) ∧
    (∀ (dfo : Option DataFrame) (e : HTTPException),
        get_available_projects dfo = Except.error e → e.status_code = 404) ∧
    dataMissingError.detail ≠ dataCorruptedError.detail ∧
    dataMissingError.detail ≠ projectNotFoundError.detail ∧
    dataCorruptedError.detail ≠ projectNotFoundError.detail := by
  refine ⟨?_, ?_, by decide, by decide, by decide⟩
  · intro dfo pn e h
    unfold get_github_project_info at h
    split at h
    · injection h with h2
      rw [← h2]
      rfl
    · split at h
      · injection h with h2
        rw [← h2]
        rfl
      · split at h
        · injection h with h2
          rw [← h2]
          rfl
        · exact Except.noConfusion h
  · intro dfo e h
    unfold get_available_projects at h
    split at h
    · injection h with h2
      rw [← h2]
      rfl
    · split at h
      · injection h with h2
        rw [← h2]
        rfl
      · exact Except.noConfusion h

/-- C7 witness: a missing dataframe produces an error, and the theorem
yields its 404 status. -/
theorem C7_witness :
    get_github_project_info none "A" = Except.error dataMissingError ∧
    dataMissingError.status_code = 404 :=
  ⟨rfl, C7_single_not_found_category.1 none "A" dataMissingError rfl⟩

/-- C8: the project-info request is deterministic and non-mutating: a
call leaves the provider state unchanged, and a second call with the
same name against the resulting state returns the identical result. -/
theorem C8_deterministic_non_mutating (provider : Option DataFrame)
    (pn : String) :
    (get_github_project_info_call provider pn).2 = provider ∧
    (get_github_project_info_call
        ((get_github_project_info_call provider pn).2) pn).1 =
      (get_github_project_info_call provider pn).1 :=
  ⟨rfl, rfl⟩

/-- C9: every successful project-info result attains its star count in
its own starpoints: `number_of_stars` equals the `total_stars` of at
least one returned starpoint. -/
theorem C9_number_of_stars_attained_in_starpoints (df : DataFrame)
    (pn : String) (p : GitHub_Project)
    (h : get_github_project_info (some df) pn = Except.ok p) :
    p.number_of_stars ∈ p.starpoints.map Starpoint.total_stars := by
  unfold get_github_project_info at h
  split at h
  · exact Except.noConfusion h
  · split at h
    · exact Except.noConfusion h
    · split at h
      · exact Except.noConfusion h
      · injection h with h2
        subst h2
        rename_i dfopt2 df2 heq2 hguard hlen
        have hm : matchedRows df2 pn ≠ [] := by
          intro hnil
          simp [hnil] at hlen
        have htied := tiedRows_ne_nil df2 pn hm
        have hmem : numberOfStars df2 pn ∈
            ((matchedRows df2 pn).filter
              (fun r => r.year == lastYear df2 pn &&
                        r.month == lastMonth df2 pn)).map Row.star_count_current :=
          listMax_mem (by simpa using htied)
        obtain ⟨r, hrtied, hrstar⟩ := List.mem_map.mp hmem
        have hrmatched : r ∈ matchedRows df2 pn := List.mem_of_mem_filter hrtied
        have hmaps : (starpointsOf df2 pn).map Starpoint.total_stars =
            (matchedRows df2 pn).map Row.star_count_current := by
          unfold starpointsOf
          rw [List.map_map]
          rfl
        show numberOfStars df2 pn ∈ (starpointsOf df2 pn).map Starpoint.total_stars
        rw [hmaps]
        exact List.mem_map.mpr ⟨r, hrmatched, hrstar⟩

/-- C9 witness: on the test fixture, project "A" returns 20 stars, which
appears among the returned starpoints. -/
theorem C9_witness :
    (⟨"A", 20, [⟨2008, 3, 10⟩, ⟨2008, 4, 20⟩]⟩ : GitHub_Project).number_of_stars ∈
      (⟨"A", 20, [⟨2008, 3, 10⟩, ⟨2008, 4, 20⟩]⟩ : GitHub_Project).starpoints.map
        Starpoint.total_stars :=
  C9_number_of_stars_attained_in_starpoints specDF "A"
    ⟨"A", 20, [⟨2008, 3, 10⟩, ⟨2008, 4, 20⟩]⟩ (by decide)

/-- C10: beyond column presence no value validation occurs: for every
dataset with the required columns and any project name with a matching
row, the handler succeeds — whatever the month or star values — and every
matched row's (year, month, star_count_current) triple appears unchanged
among the returned starpoints. -/
theorem C10_no_value_validation (df : DataFrame) (pn : String)
    (hname : df.columns.contains "name" = true)
    (hyear : df.columns.contains "year" = true)
    (hmonth : df.columns.contains "month" = true)
    (hstar : df.columns.contains "star_count_current" = true)
    (hmatch : ∃ r ∈ df.rows, r.name = pn) :
    ∃ p : GitHub_Project,
      get_github_project_info (some df) pn = Except.ok p ∧
      ∀ r ∈ df.rows, r.name = pn →
        (⟨r.year, r.month, r.star_count_current⟩ : Starpoint) ∈ p.starpoints := by
  refine ⟨⟨pn, numberOfStars df pn, starpointsOf df pn⟩,
          get_github_project_info_ok df pn hname hyear hmonth hstar hmatch, ?_⟩
  intro r hr hrn
  exact List.mem_map.mpr ⟨r, List.mem_filter.mpr ⟨hr, by simp [hrn]⟩, rfl⟩

/-- C10 witness: a dataset with month 13, month 0 and negative star
counts still succeeds, the out-of-range values are propagated unchanged
into the starpoints, and the computed star count is the negative -5. -/
theorem C10_witness :
    ∃ p : GitHub_Project,
      get_github_project_info (some weirdDF) "X" = Except.ok p ∧
      (⟨2020, 13, -5⟩ : Starpoint) ∈ p.starpoints ∧
      (⟨2020, 0, -7⟩ : Starpoint) ∈ p.starpoints ∧
      p.number_of_stars = -5 := by
  obtain ⟨p, hok, hall⟩ :=
    C10_no_value_validation weirdDF "X" (by decide) (by decide) (by decide)
      (by decide) (by decide)
  have h2 : get_github_project_info (some weirdDF) "X" =
      Except.ok ⟨"X", -5, [⟨2020, 13, -5⟩, ⟨2020, 0, -7⟩]⟩ := by decide
  refine ⟨p, hok, ?_, ?_, ?_⟩
  · exact hall ⟨"X", 2020, 13, -5⟩ (by decide) rfl
  · exact hall ⟨"X", 2020, 0, -7⟩ (by decide) rfl
  · rw [h2] at hok
    injection hok with h3
    rw [← h3]
